import Mathlib

/-
Verification of the head-coupled perspective pipeline (off-axis-sneaker).

The arithmetic of the source is embedded over the rationals wherever the
source uses only field operations and min/max (calibration store,
off-axis projector), so that every definition is executable and concrete
instances can be settled by decide.  The landmark adapter uses a square
root, so that part is embedded over the reals.
-/

/-! ## Calibration store (utils/calibration.ts) -/

structure CalibrationData where
  screenWidthCm : ℚ
  screenHeightCm : ℚ
  viewingDistanceCm : ℚ
  pixelWidth : ℚ
  pixelHeight : ℚ
  isCalibrated : Bool
deriving DecidableEq

/-- Embedding of TypeScript Partial CalibrationData: a field that is
absent from the update is none. -/
structure CalibrationPatch where
  screenWidthCm : Option ℚ
  screenHeightCm : Option ℚ
  viewingDistanceCm : Option ℚ
  pixelWidth : Option ℚ
  pixelHeight : Option ℚ
  isCalibrated : Option Bool
deriving DecidableEq

def DEFAULT_CALIBRATION : CalibrationData :=
  { screenWidthCm := 34
    screenHeightCm := 19
    viewingDistanceCm := 60
    pixelWidth := 1920
    pixelHeight := 1080
    isCalibrated := false }

/-- Source: this.data = \x7b ...this.data, ...data, isCalibrated: true \x7d.
Spread semantics: a field present in the patch overrides the current value;
the trailing literal forces isCalibrated to true regardless of the patch. -/
def saveCalibration (data : CalibrationData) (patch : CalibrationPatch) :
    CalibrationData :=
  { screenWidthCm := patch.screenWidthCm.getD data.screenWidthCm
    screenHeightCm := patch.screenHeightCm.getD data.screenHeightCm
    viewingDistanceCm := patch.viewingDistanceCm.getD data.viewingDistanceCm
    pixelWidth := patch.pixelWidth.getD data.pixelWidth
    pixelHeight := patch.pixelHeight.getD data.pixelHeight
    isCalibrated := true }

def getCmPerPixel (data : CalibrationData) : ℚ × ℚ :=
  (data.screenWidthCm / data.pixelWidth,
   data.screenHeightCm / data.pixelHeight)

def estimateViewingDistanceFromFaceWidth (data : CalibrationData)
    (faceWidthNormalized : ℚ) (assumedRealFaceWidthCm : ℚ := 15) : ℚ :=
  let faceWidthPixels := faceWidthNormalized * data.pixelWidth
  let cmPerPixel := getCmPerPixel data
  let faceWidthCm := faceWidthPixels * cmPerPixel.1
  let estimatedDistance := (assumedRealFaceWidthCm * data.screenWidthCm) / faceWidthCm
  max 20 (min 150 estimatedDistance)

/-! ## Off-axis projector (utils/offAxisCamera.ts) -/

structure HeadPose where
  x : ℚ
  y : ℚ
  z : ℚ
deriving DecidableEq

structure HeadPositionWorld where
  x : ℚ
  y : ℚ
  z : ℚ
deriving DecidableEq

/-- The six parameters handed to makePerspective; the camera projection
state is modelled by the most recent such frustum. -/
structure Frustum where
  left : ℚ
  right : ℚ
  bottom : ℚ
  top : ℚ
  near : ℚ
  far : ℚ
deriving DecidableEq

structure Vec3 where
  x : ℚ
  y : ℚ
  z : ℚ
deriving DecidableEq

structure PerspectiveCamera where
  projectionMatrix : Frustum
  position : Vec3
  lookAtTarget : Vec3
deriving DecidableEq

def worldScale : ℚ := 0.01

def movementScale : ℚ := 1.5

def nearPlane : ℚ := 0.05

def farPlane : ℚ := 1000

def screenWidthWorld (calibration : CalibrationData) : ℚ :=
  calibration.screenWidthCm * worldScale

def screenHeightWorld (calibration : CalibrationData) : ℚ :=
  calibration.screenHeightCm * worldScale

def headPoseToWorldPosition (calibration : CalibrationData)
    (headPose : HeadPose) : HeadPositionWorld :=
  let normalizedX := headPose.x
  let normalizedY := headPose.y
  let headXWorld := -(normalizedX - 0.5) * screenWidthWorld calibration * movementScale
  let headYWorld := -(normalizedY - 0.5) * screenHeightWorld calibration * movementScale
  let baseDistance := calibration.viewingDistanceCm * worldScale
  let depthScale := 1.0 / headPose.z
  let headZWorld := baseDistance * depthScale
  { x := headXWorld, y := headYWorld, z := headZWorld }

/-- Source: early return (camera untouched) when viewerToScreenDistance is
not positive; otherwise the projection matrix is rebuilt from the frustum
bounds. -/
def updateProjectionMatrix (camera : PerspectiveCamera)
    (calibration : CalibrationData) (headPosition : HeadPositionWorld) :
    PerspectiveCamera :=
  let near := nearPlane
  let far := farPlane
  let screenLeft := -screenWidthWorld calibration / 2
  let screenRight := screenWidthWorld calibration / 2
  let screenBottom := -screenHeightWorld calibration / 2
  let screenTop := screenHeightWorld calibration / 2
  let eyeX := headPosition.x
  let eyeY := headPosition.y
  let eyeZ := headPosition.z
  let screenZ : ℚ := 0
  let viewerToScreenDistance := eyeZ - screenZ
  if viewerToScreenDistance ≤ 0 then
    camera
  else
    let n_over_d := near / viewerToScreenDistance
    { camera with
        projectionMatrix :=
          { left := (screenLeft - eyeX) * n_over_d
            right := (screenRight - eyeX) * n_over_d
            bottom := (screenBottom - eyeY) * n_over_d
            top := (screenTop - eyeY) * n_over_d
            near := near
            far := far } }

def setCameraPosition (camera : PerspectiveCamera)
    (headPosition : HeadPositionWorld) : PerspectiveCamera :=
  { camera with
      position := { x := headPosition.x, y := headPosition.y, z := headPosition.z }
      lookAtTarget := { x := headPosition.x, y := headPosition.y, z := 0 } }

/-- A camera in its initial state, used for concrete instantiations. -/
def initialCamera : PerspectiveCamera :=
  { projectionMatrix := { left := 0, right := 0, bottom := 0, top := 0, near := 0, far := 0 }
    position := { x := 0, y := 0, z := 0 }
    lookAtTarget := { x := 0, y := 0, z := 0 } }

/-! ## Landmark-to-pose adapter (FaceMeshView onResults) -/

structure Landmark where
  x : ℝ
  y : ℝ

structure RawHeadPose where
  x : ℝ
  y : ℝ
  z : ℝ

/-- The head-pose extraction performed by onResults on a detected landmark
set: face center from the two inner eye corners and the nose tip, depth
proxy from inter-ocular distance and outer eye width, clamped to
the interval from 0.5 to 2.0 before being emitted. -/
noncomputable def onResultsHeadPose (landmarks : List Landmark) :
    Option RawHeadPose :=
  if h : 468 ≤ landmarks.length then
    let leftEyeInner := landmarks[133]
    let rightEyeInner := landmarks[362]
    let noseTip := landmarks[1]
    let leftEyeOuter := landmarks[33]
    let rightEyeOuter := landmarks[263]
    let faceX := (leftEyeInner.x + rightEyeInner.x + noseTip.x) / 3
    let faceY := (leftEyeInner.y + rightEyeInner.y + noseTip.y) / 3
    let interOcularDist := Real.sqrt
      ((rightEyeInner.x - leftEyeInner.x) ^ 2 +
       (rightEyeInner.y - leftEyeInner.y) ^ 2)
    let eyeWidth := Real.sqrt
      ((rightEyeOuter.x - leftEyeOuter.x) ^ 2 +
       (rightEyeOuter.y - leftEyeOuter.y) ^ 2)
    let depthProxy := (interOcularDist + eyeWidth * 0.5) / 0.15
    some { x := faceX, y := faceY, z := max 0.5 (min 2.0 depthProxy) }
  else
    none

/-! ## Spec-side definitions used for comparison -/

/-- The similar-triangles raw estimate exactly as the spec words it:
assumedFaceWidthCm times screenWidthCm divided by observedFaceWidthCm,
where observedFaceWidthCm = faceWidthNormalized times pixelWidth times
cmPerPixel.x. -/
def rawDistanceEstimate (data : CalibrationData)
    (faceWidthNormalized : ℚ) (assumedFaceWidthCm : ℚ) : ℚ :=
  (assumedFaceWidthCm * data.screenWidthCm) /
    (faceWidthNormalized * data.pixelWidth * (getCmPerPixel data).1)

/-! ## Claims -/

/-- C1: for every head position with eye.z not above 0, updateProjectionMatrix
is a no-op that leaves the whole camera (in particular its projection matrix)
unchanged; for every head position with eye.z above 0 the projection matrix is
recomputed from calibration and eye position alone. -/
theorem claim1_degenerate_guard (camera : PerspectiveCamera)
    (calibration : CalibrationData) (pos : HeadPositionWorld) :
    (pos.z ≤ 0 → updateProjectionMatrix camera calibration pos = camera) ∧
    (0 < pos.z → (updateProjectionMatrix camera calibration pos).projectionMatrix =
      { left := (-(calibration.screenWidthCm * 0.01) / 2 - pos.x) * (0.05 / pos.z)
        right := (calibration.screenWidthCm * 0.01 / 2 - pos.x) * (0.05 / pos.z)
        bottom := (-(calibration.screenHeightCm * 0.01) / 2 - pos.y) * (0.05 / pos.z)
        top := (calibration.screenHeightCm * 0.01 / 2 - pos.y) * (0.05 / pos.z)
        near := 0.05
        far := 1000 }) := by
  constructor
  · intro h
    simp only [updateProjectionMatrix]
    rw [if_pos (by simpa using h)]
  · intro h
    simp only [updateProjectionMatrix]
    rw [if_neg (by simp only [sub_zero, not_le]; exact h)]
    simp only [screenWidthWorld, screenHeightWorld, worldScale, nearPlane, farPlane,
      sub_zero, Frustum.mk.injEq]

theorem claim1_degenerate_guard_witness :
    ((-1 : ℚ) ≤ 0 ∧
      updateProjectionMatrix initialCamera DEFAULT_CALIBRATION
        { x := 0, y := 0, z := -1 } = initialCamera) ∧
    ((0 : ℚ) < 1 ∧
      (updateProjectionMatrix initialCamera DEFAULT_CALIBRATION
        { x := 0, y := 0, z := 1 }).projectionMatrix =
        { left := (-(34 * 0.01) / 2 - 0) * (0.05 / 1)
          right := (34 * 0.01 / 2 - 0) * (0.05 / 1)
          bottom := (-(19 * 0.01) / 2 - 0) * (0.05 / 1)
          top := (19 * 0.01 / 2 - 0) * (0.05 / 1)
          near := 0.05
          far := 1000 }) :=
  ⟨⟨by decide,
    (claim1_degenerate_guard initialCamera DEFAULT_CALIBRATION
      { x := 0, y := 0, z := -1 }).1 (by decide)⟩,
   ⟨by decide,
    (claim1_degenerate_guard initialCamera DEFAULT_CALIBRATION
      { x := 0, y := 0, z := 1 }).2 (by decide)⟩⟩

/-- C2: for every pose with pose.z above 0 and every calibration,
headPoseToWorldPosition returns exactly the negated-and-centered lateral
offsets scaled by worldScale 0.01 and movementScale 1.5, and the inverted
depth (viewingDistanceCm times 0.01) divided by pose.z. -/
theorem claim2_world_position_formula (calibration : CalibrationData)
    (pose : HeadPose) (hz : 0 < pose.z) :
    headPoseToWorldPosition calibration pose =
      { x := -(pose.x - 0.5) * (calibration.screenWidthCm * 0.01) * 1.5
        y := -(pose.y - 0.5) * (calibration.screenHeightCm * 0.01) * 1.5
        z := calibration.viewingDistanceCm * 0.01 / pose.z } := by
  simp only [headPoseToWorldPosition, screenWidthWorld, screenHeightWorld,
    worldScale, movementScale, HeadPositionWorld.mk.injEq]
  refine ⟨by ring, by ring, by ring⟩

theorem claim2_world_position_formula_witness :
    (0 : ℚ) < 2 ∧
    headPoseToWorldPosition DEFAULT_CALIBRATION { x := 0.25, y := 0.75, z := 2 } =
      { x := -(0.25 - 0.5) * (34 * 0.01) * 1.5
        y := -(0.75 - 0.5) * (19 * 0.01) * 1.5
        z := 60 * 0.01 / 2 } :=
  ⟨by decide,
   claim2_world_position_formula DEFAULT_CALIBRATION
     { x := 0.25, y := 0.75, z := 2 } (by decide)⟩

/-- C3: for fixed calibration with positive viewing distance and fixed pose
x and y, the eye z computed by headPoseToWorldPosition is strictly
decreasing in the depth proxy: 0 < z1 < z2 implies eye.z at z1 exceeds
eye.z at z2. -/
theorem claim3_monotone_depth_inversion (calibration : CalibrationData)
    (x y z1 z2 : ℚ) (hv : 0 < calibration.viewingDistanceCm)
    (h1 : 0 < z1) (h12 : z1 < z2) :
    (headPoseToWorldPosition calibration { x := x, y := y, z := z2 }).z <
      (headPoseToWorldPosition calibration { x := x, y := y, z := z1 }).z := by
  simp only [headPoseToWorldPosition]
  have hone : (1.0 : ℚ) = 1 := by norm_num
  rw [hone]
  have hd : 0 < calibration.viewingDistanceCm * worldScale :=
    mul_pos hv (by norm_num [worldScale])
  have hinv : (1 : ℚ) / z2 < 1 / z1 := one_div_lt_one_div_of_lt h1 h12
  exact mul_lt_mul_of_pos_left hinv hd

theorem claim3_monotone_depth_inversion_witness :
    (0 : ℚ) < DEFAULT_CALIBRATION.viewingDistanceCm ∧ (0 : ℚ) < 1 ∧ (1 : ℚ) < 2 ∧
    (headPoseToWorldPosition DEFAULT_CALIBRATION { x := 0.5, y := 0.5, z := 2 }).z <
      (headPoseToWorldPosition DEFAULT_CALIBRATION { x := 0.5, y := 0.5, z := 1 }).z :=
  ⟨by decide, by decide, by decide,
   claim3_monotone_depth_inversion DEFAULT_CALIBRATION 0.5 0.5 1 2
     (by decide) (by decide) (by decide)⟩

/-- C8: for a centered eye (eye.x = 0, eye.y = 0) with eye.z above 0, the
frustum computed by updateProjectionMatrix is symmetric: left = -right and
bottom = -top. -/
theorem claim8_centered_eye_symmetry (camera : PerspectiveCamera)
    (calibration : CalibrationData) (z : ℚ) (hz : 0 < z) :
    ((updateProjectionMatrix camera calibration { x := 0, y := 0, z := z }).projectionMatrix.left =
      -(updateProjectionMatrix camera calibration { x := 0, y := 0, z := z }).projectionMatrix.right) ∧
    ((updateProjectionMatrix camera calibration { x := 0, y := 0, z := z }).projectionMatrix.bottom =
      -(updateProjectionMatrix camera calibration { x := 0, y := 0, z := z }).projectionMatrix.top) := by
  simp only [updateProjectionMatrix]
  rw [if_neg (by simp only [sub_zero, not_le]; exact hz)]
  constructor <;> (simp only []; ring)

theorem claim8_centered_eye_symmetry_witness :
    (0 : ℚ) < 1 ∧
    ((updateProjectionMatrix initialCamera DEFAULT_CALIBRATION
        { x := 0, y := 0, z := 1 }).projectionMatrix.left =
      -(updateProjectionMatrix initialCamera DEFAULT_CALIBRATION
        { x := 0, y := 0, z := 1 }).projectionMatrix.right) ∧
    ((updateProjectionMatrix initialCamera DEFAULT_CALIBRATION
        { x := 0, y := 0, z := 1 }).projectionMatrix.bottom =
      -(updateProjectionMatrix initialCamera DEFAULT_CALIBRATION
        { x := 0, y := 0, z := 1 }).projectionMatrix.top) :=
  ⟨by decide,
   claim8_centered_eye_symmetry initialCamera DEFAULT_CALIBRATION 1 (by decide)⟩

/-- C4 counterexample: at eye position (1, 2, 3) the look-at target set by
setCameraPosition is (1, 2, 0), not the screen-plane origin (0, 0, 0), so
the claim that every eye position is aimed at (0, 0, 0) fails. -/
theorem claim4_lookat_counterexample :
    (setCameraPosition initialCamera { x := 1, y := 2, z := 3 }).lookAtTarget ≠
      { x := 0, y := 0, z := 0 } := by
  decide

/-- C4 amended: for every eye position, setCameraPosition places the camera
at the eye position and aims it at the screen-plane point directly in front
of the eye, (eye.x, eye.y, 0); this coincides with the origin only for a
centered eye. -/
theorem claim4_camera_placement (camera : PerspectiveCamera)
    (pos : HeadPositionWorld) :
    (setCameraPosition camera pos).position =
        { x := pos.x, y := pos.y, z := pos.z } ∧
    (setCameraPosition camera pos).lookAtTarget =
        { x := pos.x, y := pos.y, z := 0 } :=
  ⟨rfl, rfl⟩

/-- C5: the estimator returns the similar-triangles raw estimate of the
spec (rawDistanceEstimate) clamped to the interval from 20 to 150: below 20
it returns 20, above 150 it returns 150, and otherwise the raw estimate
itself. -/
theorem claim5_distance_estimate_clamp (calibration : CalibrationData)
    (faceWidthNormalized : ℚ) :
    estimateViewingDistanceFromFaceWidth calibration faceWidthNormalized =
      if rawDistanceEstimate calibration faceWidthNormalized 15 < 20 then 20
      else if 150 < rawDistanceEstimate calibration faceWidthNormalized 15 then 150
      else rawDistanceEstimate calibration faceWidthNormalized 15 := by
  have he : estimateViewingDistanceFromFaceWidth calibration faceWidthNormalized =
      max 20 (min 150 (rawDistanceEstimate calibration faceWidthNormalized 15)) := rfl
  rw [he]
  rcases lt_or_le (rawDistanceEstimate calibration faceWidthNormalized 15) 20 with h1 | h1
  · rw [if_pos h1, min_eq_right (le_of_lt (lt_of_lt_of_le h1 (by norm_num))),
      max_eq_left h1.le]
  · rw [if_neg (not_lt.mpr h1)]
    rcases lt_or_le 150 (rawDistanceEstimate calibration faceWidthNormalized 15) with h2 | h2
    · rw [if_pos h2, min_eq_left h2.le, max_eq_right (by norm_num)]
    · rw [if_neg (not_lt.mpr h2), min_eq_right h2, max_eq_right h1]

/-- C6 counterexample: an update carrying the non-positive screen width -1
is not rejected: saveCalibration merges it, so the stored screenWidthCm
changes from 34 to -1 and no validation failure exists anywhere in the
operation. -/
theorem claim6_no_validation_counterexample :
    (saveCalibration DEFAULT_CALIBRATION
        { screenWidthCm := some (-1), screenHeightCm := none,
          viewingDistanceCm := none, pixelWidth := none,
          pixelHeight := none, isCalibrated := none }).screenWidthCm = -1 ∧
    (saveCalibration DEFAULT_CALIBRATION
        { screenWidthCm := some (-1), screenHeightCm := none,
          viewingDistanceCm := none, pixelWidth := none,
          pixelHeight := none, isCalibrated := none }).screenWidthCm ≠
      DEFAULT_CALIBRATION.screenWidthCm := by
  decide

/-- C6 amended: the calibration store never validates: an update whose
screenWidthCm is non-positive is merged verbatim into the stored state (the
stored width becomes the non-positive value) and isCalibrated is still set
to true; no validation failure is signaled. -/
theorem claim6_nonpositive_update_accepted (data : CalibrationData) (w : ℚ)
    (hw : w ≤ 0) :
    (saveCalibration data
        { screenWidthCm := some w, screenHeightCm := none,
          viewingDistanceCm := none, pixelWidth := none,
          pixelHeight := none, isCalibrated := none }).screenWidthCm = w ∧
    (saveCalibration data
        { screenWidthCm := some w, screenHeightCm := none,
          viewingDistanceCm := none, pixelWidth := none,
          pixelHeight := none, isCalibrated := none }).isCalibrated = true :=
  ⟨rfl, rfl⟩

theorem claim6_nonpositive_update_accepted_witness :
    (-1 : ℚ) ≤ 0 ∧
    ((saveCalibration DEFAULT_CALIBRATION
        { screenWidthCm := some (-1), screenHeightCm := none,
          viewingDistanceCm := none, pixelWidth := none,
          pixelHeight := none, isCalibrated := none }).screenWidthCm = -1 ∧
     (saveCalibration DEFAULT_CALIBRATION
        { screenWidthCm := some (-1), screenHeightCm := none,
          viewingDistanceCm := none, pixelWidth := none,
          pixelHeight := none, isCalibrated := none }).isCalibrated = true) :=
  ⟨by decide, claim6_nonpositive_update_accepted DEFAULT_CALIBRATION (-1) (by decide)⟩

/-- C7: every pose the landmark adapter emits has its depth proxy clamped
into the interval from 0.5 to 2.0, hence strictly positive before any
downstream inversion. -/
theorem claim7_depth_proxy_clamped (landmarks : List Landmark)
    (pose : RawHeadPose) (h : onResultsHeadPose landmarks = some pose) :
    0.5 ≤ pose.z ∧ pose.z ≤ 2 := by
  unfold onResultsHeadPose at h
  split at h
  · rw [Option.some.inj h.symm]
    constructor
    · exact le_max_left _ _
    · exact max_le (by norm_num) ((min_le_left _ _).trans (by norm_num))
  · exact absurd h (by simp)

theorem claim7_depth_proxy_clamped_witness :
    onResultsHeadPose (List.replicate 468 { x := 0, y := 0 }) =
      some { x := 0, y := 0, z := 0.5 } ∧
    (0.5 ≤ (RawHeadPose.mk 0 0 0.5).z ∧ (RawHeadPose.mk 0 0 0.5).z ≤ 2) := by
  have heval : onResultsHeadPose (List.replicate 468 { x := 0, y := 0 }) =
      some { x := 0, y := 0, z := 0.5 } := by
    unfold onResultsHeadPose
    rw [dif_pos (le_of_eq (List.length_replicate 468 _).symm)]
    simp only [List.getElem_replicate]
    norm_num [Real.sqrt_zero]
  exact ⟨heval, claim7_depth_proxy_clamped _ _ heval⟩

/-- C9: saveCalibration merges exactly the provided fields: isCalibrated
becomes true, every absent field keeps its previous value, and every
provided field takes the provided value. -/
theorem claim9_partial_merge (data : CalibrationData) (patch : CalibrationPatch) :
    (saveCalibration data patch).isCalibrated = true ∧
    (patch.screenWidthCm = none →
      (saveCalibration data patch).screenWidthCm = data.screenWidthCm) ∧
    (∀ v, patch.screenWidthCm = some v →
      (saveCalibration data patch).screenWidthCm = v) ∧
    (patch.screenHeightCm = none →
      (saveCalibration data patch).screenHeightCm = data.screenHeightCm) ∧
    (∀ v, patch.screenHeightCm = some v →
      (saveCalibration data patch).screenHeightCm = v) ∧
    (patch.viewingDistanceCm = none →
      (saveCalibration data patch).viewingDistanceCm = data.viewingDistanceCm) ∧
    (∀ v, patch.viewingDistanceCm = some v →
      (saveCalibration data patch).viewingDistanceCm = v) ∧
    (patch.pixelWidth = none →
      (saveCalibration data patch).pixelWidth = data.pixelWidth) ∧
    (∀ v, patch.pixelWidth = some v →
      (saveCalibration data patch).pixelWidth = v) ∧
    (patch.pixelHeight = none →
      (saveCalibration data patch).pixelHeight = data.pixelHeight) ∧
    (∀ v, patch.pixelHeight = some v →
      (saveCalibration data patch).pixelHeight = v) := by
  refine ⟨rfl, ?_, ?_, ?_, ?_, ?_, ?_, ?_, ?_, ?_, ?_⟩ <;>
    (intros; simp_all [saveCalibration])

theorem claim9_partial_merge_witness :
    (saveCalibration DEFAULT_CALIBRATION
        { screenWidthCm := some 50, screenHeightCm := none,
          viewingDistanceCm := some 70, pixelWidth := none,
          pixelHeight := none, isCalibrated := none }).isCalibrated = true ∧
    (saveCalibration DEFAULT_CALIBRATION
        { screenWidthCm := some 50, screenHeightCm := none,
          viewingDistanceCm := some 70, pixelWidth := none,
          pixelHeight := none, isCalibrated := none }).screenWidthCm = 50 ∧
    (saveCalibration DEFAULT_CALIBRATION
        { screenWidthCm := some 50, screenHeightCm := none,
          viewingDistanceCm := some 70, pixelWidth := none,
          pixelHeight := none, isCalibrated := none }).screenHeightCm =
      DEFAULT_CALIBRATION.screenHeightCm := by
  obtain ⟨hcal, hwN, hwS, hhN, hhS, _⟩ :=
    claim9_partial_merge DEFAULT_CALIBRATION
      { screenWidthCm := some 50, screenHeightCm := none,
        viewingDistanceCm := some 70, pixelWidth := none,
        pixelHeight := none, isCalibrated := none }
  exact ⟨hcal, hwS 50 rfl, hhN rfl⟩

/-- C10: for positive face width and two valid calibrations (positive
screen width and pixel width) agreeing outside screenWidthCm, pixelWidth
and pixelHeight, the distance estimate is identical, and equals 15 divided
by faceWidthNormalized clamped to the interval from 20 to 150: the screen
and pixel dimensions cancel out of the similar-triangles formula. -/
theorem claim10_estimate_calibration_independent (faceWidthNormalized : ℚ)
    (cal1 cal2 : CalibrationData)
    (hfw : 0 < faceWidthNormalized)
    (h1w : 0 < cal1.screenWidthCm) (h1p : 0 < cal1.pixelWidth)
    (h2w : 0 < cal2.screenWidthCm) (h2p : 0 < cal2.pixelWidth)
    (hh : cal1.screenHeightCm = cal2.screenHeightCm)
    (hd : cal1.viewingDistanceCm = cal2.viewingDistanceCm)
    (hc : cal1.isCalibrated = cal2.isCalibrated) :
    estimateViewingDistanceFromFaceWidth cal1 faceWidthNormalized =
      estimateViewingDistanceFromFaceWidth cal2 faceWidthNormalized ∧
    estimateViewingDistanceFromFaceWidth cal1 faceWidthNormalized =
      max 20 (min 150 (15 / faceWidthNormalized)) := by
  have key : ∀ cal : CalibrationData, 0 < cal.screenWidthCm → 0 < cal.pixelWidth →
      estimateViewingDistanceFromFaceWidth cal faceWidthNormalized =
        max 20 (min 150 (15 / faceWidthNormalized)) := by
    intro cal hw hp
    simp only [estimateViewingDistanceFromFaceWidth, getCmPerPixel]
    have hp0 : cal.pixelWidth ≠ 0 := ne_of_gt hp
    have hw0 : cal.screenWidthCm ≠ 0 := ne_of_gt hw
    have hcancel : faceWidthNormalized * cal.pixelWidth *
        (cal.screenWidthCm / cal.pixelWidth) =
        faceWidthNormalized * cal.screenWidthCm := by
      field_simp
      ring
    rw [hcancel]
    have hfrac : (15 * cal.screenWidthCm) /
        (faceWidthNormalized * cal.screenWidthCm) = 15 / faceWidthNormalized := by
      rw [div_eq_div_iff (mul_ne_zero (ne_of_gt hfw) hw0) (ne_of_gt hfw)]
      ring
    rw [hfrac]
  exact ⟨(key cal1 h1w h1p).trans (key cal2 h2w h2p).symm, key cal1 h1w h1p⟩

theorem claim10_estimate_calibration_independent_witness :
    (0 : ℚ) < 0.5 ∧
    (0 : ℚ) < DEFAULT_CALIBRATION.screenWidthCm ∧
    (0 : ℚ) < (CalibrationData.mk 68 19 60 3840 1080 false).screenWidthCm ∧
    (estimateViewingDistanceFromFaceWidth DEFAULT_CALIBRATION 0.5 =
      estimateViewingDistanceFromFaceWidth (CalibrationData.mk 68 19 60 3840 1080 false) 0.5 ∧
     estimateViewingDistanceFromFaceWidth DEFAULT_CALIBRATION 0.5 =
      max 20 (min 150 (15 / 0.5))) :=
  ⟨by norm_num, by decide, by decide,
   claim10_estimate_calibration_independent 0.5 DEFAULT_CALIBRATION
     (CalibrationData.mk 68 19 60 3840 1080 false)
     (by norm_num) (by decide) (by decide) (by decide) (by decide)
     rfl rfl rfl⟩
